import Mathlib

/-!
Verification of the Pokémon Collection Service (src/index.js).

The service is a CRUD HTTP API over a single collection of Pokémon
records.  We give a shallow embedding: the store is a list of records
(the document database is an external collaborator reached through
find / findOne / create / findOneAndUpdate / findOneAndDelete
primitives, which we model on lists), and each Express route handler
becomes a Lean function from the request's parameters and the store
state to a response (and, for writes, the new store state).
-/

namespace PokemonService

/-- The localized name mapping of a record: recognized keys are
`english`, `french`, `japanese`, `chinese`; none is required. -/
structure Name where
  english : Option String
  french : Option String
  japanese : Option String
  chinese : Option String
deriving DecidableEq, Repr

/-- The `base` stat mapping of a record
(`HP`, `Attack`, `Defense`, `SpecialAttack`, `SpecialDefense`, `Speed`). -/
structure PokeBase where
  hp : Nat
  attack : Nat
  defense : Nat
  specialAttack : Nat
  specialDefense : Nat
  speed : Nat
deriving DecidableEq, Repr

/-- One Pokémon record, keyed by its domain-level integer `id`. -/
structure Pokemon where
  id : Int
  name : Name
  type : List String
  base : PokeBase
  image : String
deriving DecidableEq, Repr

/-- The store state: the ordered sequence of records of the `pokemon`
collection, in the store's natural (insertion) order. -/
abbrev Store := List Pokemon

/-- A JSON HTTP response: either a success `ok code body` or an error
`err code msg` whose JSON body is `{error: msg}`. -/
inductive Resp (α : Type) where
  | ok (code : Nat) (body : α)
  | err (code : Nat) (msg : String)
deriving DecidableEq, Repr

/-- HTTP status code of a response. -/
def Resp.status : Resp α → Nat
  | .ok c _ => c
  | .err c _ => c

/-- Decimal value of the leading run of digits of a character list;
`none` when it does not start with a digit (JS `parseInt` yields `NaN`). -/
def digitsVal (cs : List Char) : Option Nat :=
  let ds := cs.takeWhile Char.isDigit
  if ds.isEmpty then none
  else some (ds.foldl (fun a c => a * 10 + (c.toNat - 48)) 0)

/-- JS `parseInt(s, 10)`: skip leading whitespace, read an optional
sign and then the longest leading run of decimal digits, ignoring any
trailing characters.  `none` models the `NaN` result when no digit is
found. -/
def parseIntJS (s : String) : Option Int :=
  let cs := s.toList.dropWhile Char.isWhitespace
  match cs with
  | '-' :: rest => (digitsVal rest).map (fun n => -(n : Int))
  | '+' :: rest => (digitsVal rest).map (fun n => (n : Int))
  | _ => (digitsVal cs).map (fun n => (n : Int))

/-- JS `parseInt(x, 10)` applied to an optional query parameter:
an absent parameter (`undefined`) parses to `NaN`. -/
def parseIntQuery : Option String → Option Int
  | none => none
  | some s => parseIntJS s

/-- JS `x || d` on a number `x`: both `NaN` (here `none`) and `0` are
falsy, so either one yields the default. -/
def jsOr (x : Option Int) (d : Int) : Int :=
  match x with
  | none => d
  | some v => if v = 0 then d else v

/-- The body of a successful paginated-list response:
`{page, limit, count, data}`. -/
structure PageResult where
  page : Int
  limit : Nat
  count : Nat
  data : List Pokemon
deriving DecidableEq, Repr

/-- Handler of `GET /pokemons/20` (src/index.js lines 113–130):
`page = parseInt(req.query.page, 10) || 1`, `limit = 20`,
`skip = (page - 1) * limit`, then `find({}).skip(skip).limit(limit)`
(modelled as `drop`/`take` on the store sequence), and the response is
`{page, limit, count: pokemons.length, data: pokemons}`. -/
def getPokemonsPage (store : Store) (pageParam : Option String) : PageResult :=
  let page := jsOr (parseIntQuery pageParam) 1
  let limit : Nat := 20
  let skip : Int := (page - 1) * 20
  let pokemons := (store.drop skip.toNat).take limit
  { page := page, limit := limit, count := pokemons.length, data := pokemons }

/-- JS `String.prototype.trim()`: strip leading and trailing whitespace. -/
def jsTrim (s : String) : String :=
  String.mk (((s.toList.dropWhile Char.isWhitespace).reverse.dropWhile
    Char.isWhitespace).reverse)

/-- Lower-cased character sequence of a string (the effect of the `i`
regex flag on a comparison). -/
def lowerList (s : String) : List Char :=
  s.toList.map Char.toLower

/-- Whether `pat` occurs as a contiguous sublist of `s`. -/
def listInfix (pat : List Char) : List Char → Bool
  | [] => pat.isEmpty
  | c :: rest => pat.isPrefixOf (c :: rest) || listInfix pat rest

/-- Modelled from the spec: the store's matching of a field against the
case-insensitive regex `new RegExp(q, "i")` — the store (schema and
database driver, `src/schema/pokemon.js` and the database being outside
`src/`) is external, and for a query free of regex metacharacters the
spec reads "contains the query as a case-insensitive substring". -/
def ciContains (q s : String) : Bool :=
  listInfix (lowerList q) (lowerList s)

/-- Regex metacharacters; a query containing none of them, used
unescaped as a pattern, denotes plain substring matching. -/
def hasRegexMeta (q : String) : Bool :=
  q.toList.any (fun c =>
    c ∈ ['.', '*', '+', '?', '^', '$', '(', ')', '[', ']', '{', '}', '|', '\\'])

/-- The `$or` filter of the search route: at least one of
`name.english`, `name.french`, `name.japanese`, `name.chinese` is
present and matches the query. -/
def matchesAnyName (q : String) (p : Pokemon) : Bool :=
  (p.name.english.elim false (ciContains q)) ||
  (p.name.french.elim false (ciContains q)) ||
  (p.name.japanese.elim false (ciContains q)) ||
  (p.name.chinese.elim false (ciContains q))

/-- Handler of `GET /pokemons/search` (src/index.js lines 168–190):
`q = (req.query.name || "").trim()`; an empty `q` is falsy and yields
`400 {error: "Query param 'name' is required"}` before any store call;
otherwise the store returns the records whose four localized name
fields are `$or`-matched against `new RegExp(q, "i")`. -/
def searchPokemons (store : Store) (nameParam : Option String) :
    Resp (List Pokemon) :=
  let q := jsTrim (nameParam.getD "")
  if q = "" then .err 400 "Query param 'name' is required"
  else .ok 200 (store.filter (matchesAnyName q))

/-- The store's `findOne({id: pid})`: the first record in natural order
whose `id` field equals the parsed value; a `NaN` key (`none`) matches
no record with an integer `id`. -/
def findOneById (store : Store) (pid : Option Int) : Option Pokemon :=
  match pid with
  | none => none
  | some v => store.find? (fun p => p.id == v)

/-- Handler of `GET /pokemons/:id` (src/index.js lines 298–310):
`pokeId = parseInt(req.params.id, 10)`, then `findOne({id: pokeId})`;
a found record is returned with 200, otherwise
`404 {error: "Pokemon not found"}`. -/
def getPokemonById (store : Store) (idParam : String) : Resp Pokemon :=
  match findOneById store (parseIntJS idParam) with
  | some p => .ok 200 p
  | none => .err 404 "Pokemon not found"

/-- Modelled from the spec: the store's `create` on a successful
(validated) body appends the new record to the collection; the handler
(src/index.js lines 247–254) answers `201` with the created record. -/
def createPokemon (store : Store) (r : Pokemon) : Resp Pokemon × Store :=
  (.ok 201 r, store ++ [r])

/-- The store's `findOneAndDelete({id: v})`: remove the first record in
natural order whose `id` equals `v`, returning it; `none` and the
unchanged store when no record matches. -/
def findOneAndDelete : Store → Int → Option Pokemon × Store
  | [], _ => (none, [])
  | p :: rest, v =>
    if p.id == v then (some p, rest)
    else ((findOneAndDelete rest v).1, p :: (findOneAndDelete rest v).2)

/-- The body of a successful delete response:
`{message: ..., id: ...}`. -/
structure DeleteOk where
  message : String
  id : Int
deriving DecidableEq, Repr

/-- Handler of `DELETE /pokemons/:id` (src/index.js lines 411–428):
`pokeId = parseInt(req.params.id, 10)`, then `findOneAndDelete({id})`;
on a deleted record the response is
`200 {message: "Pokemon deleted successfully", id: pokeId}`, otherwise
`404 {error: "Pokemon not found"}`. -/
def deletePokemon (store : Store) (idParam : String) :
    Resp DeleteOk × Store :=
  match parseIntJS idParam with
  | none => (.err 404 "Pokemon not found", store)
  | some v =>
    match findOneAndDelete store v with
    | (some _, store2) =>
      (.ok 200 { message := "Pokemon deleted successfully", id := v }, store2)
    | (none, store2) => (.err 404 "Pokemon not found", store2)

/-- Modelled from the spec: an update body, "a set of fields to apply"
("partial or full replacement of fields"), one optional value per
top-level attribute. -/
structure PokemonUpdate where
  name : Option Name
  type : Option (List String)
  base : Option PokeBase
  image : Option String
deriving DecidableEq, Repr

/-- Modelled from the spec: applying an update body to a record
replaces exactly the fields the body carries. -/
def applyUpdate (p : Pokemon) (u : PokemonUpdate) : Pokemon :=
  { p with
    name := u.name.getD p.name
    type := u.type.getD p.type
    base := u.base.getD p.base
    image := u.image.getD p.image }

/-- The store's `findOneAndUpdate({id: v}, body, {new: true})`: apply
the body to the first record in natural order whose `id` equals `v`
and return the updated record; `none` and the unchanged store when no
record matches (no upsert option is passed). -/
def findOneAndUpdate : Store → Int → PokemonUpdate → Option Pokemon × Store
  | [], _, _ => (none, [])
  | p :: rest, v, u =>
    if p.id == v then (some (applyUpdate p u), applyUpdate p u :: rest)
    else ((findOneAndUpdate rest v u).1, p :: (findOneAndUpdate rest v u).2)

/-- Handler of `PUT /pokemons/:id` (src/index.js lines 360–377):
`pokeId = parseInt(req.params.id, 10)`, then
`findOneAndUpdate({id: pokeId}, req.body, {new: true, runValidators: true})`.
Any failure thrown by the store call — `runValidators` rejecting the
body, or any other store failure, modelled by the `storeFailure`
outcome — reaches the single `catch` and becomes
`400 {error: error.message}`; a `null` result becomes
`404 {error: "Pokemon not found"}`; otherwise the updated record is
returned with 200. -/
def putPokemon (store : Store) (idParam : String) (u : PokemonUpdate)
    (storeFailure : Option String) : Resp Pokemon × Store :=
  match storeFailure with
  | some msg => (.err 400 msg, store)
  | none =>
    match parseIntJS idParam with
    | none => (.err 404 "Pokemon not found", store)
    | some v =>
      match findOneAndUpdate store v u with
      | (some p, store2) => (.ok 200 p, store2)
      | (none, store2) => (.err 404 "Pokemon not found", store2)

/-- HTTP methods used by the service. -/
inductive Method where
  | GET | POST | PUT | DELETE
deriving DecidableEq, Repr

/-- A segment of a registered route path: a literal, or a named
parameter (`:id`). -/
inductive Seg where
  | lit (s : String)
  | param (name : String)
deriving DecidableEq, Repr

/-- The route handlers of src/index.js. -/
inductive Handler where
  | root | listAll | paginated | search | create | getById | update | remove
deriving DecidableEq, Repr

/-- The routing table in registration order (src/index.js lines 28,
65, 113, 168, 247, 298, 360, 411). -/
def routes : List (Method × List Seg × Handler) :=
  [ (.GET, [], .root),
    (.GET, [.lit "pokemons"], .listAll),
    (.GET, [.lit "pokemons", .lit "20"], .paginated),
    (.GET, [.lit "pokemons", .lit "search"], .search),
    (.POST, [.lit "pokemons"], .create),
    (.GET, [.lit "pokemons", .param "id"], .getById),
    (.PUT, [.lit "pokemons", .param "id"], .update),
    (.DELETE, [.lit "pokemons", .param "id"], .remove) ]

/-- Whether a route pattern matches a concrete path: same length,
literals equal segment-wise, parameters matching any segment. -/
def matchPath : List Seg → List String → Bool
  | [], [] => true
  | .lit s :: pat, x :: xs => s == x && matchPath pat xs
  | .param _ :: pat, _ :: xs => matchPath pat xs
  | _, _ => false

/-- Modelled from the spec: route dispatch tries the registered routes
in registration order and the first one whose method and path match
handles the request. -/
def dispatch (m : Method) (path : List String) : Option Handler :=
  (routes.find? (fun r => r.1 == m && matchPath r.2.1 path)).map (·.2.2)

/-- Concrete record number 1 (the documentation example of src/index.js). -/
def bulbizarre : Pokemon :=
  { id := 1
    name := { english := some "Bulbasaur", french := some "Bulbizarre"
              japanese := none, chinese := none }
    type := ["Grass", "Poison"]
    base := { hp := 45, attack := 49, defense := 49
              specialAttack := 65, specialDefense := 65, speed := 45 }
    image := "http://localhost:3000/assets/pokemons/1.png" }

/-- Concrete record number 25 (the README example). -/
def pikachu : Pokemon :=
  { id := 25
    name := { english := some "Pikachu", french := some "Pikachu"
              japanese := none, chinese := none }
    type := ["Electric"]
    base := { hp := 35, attack := 55, defense := 40
              specialAttack := 50, specialDefense := 50, speed := 90 }
    image := "http://localhost:3000/assets/pokemons/25.png" }

/-- A small concrete store state for witnesses. -/
def demoStore : Store := [bulbizarre, pikachu]

/-- A record with domain id 7 (the service enforces no uniqueness on
`id`, so a second record with the same id can be stored). -/
def dupOld : Pokemon :=
  { id := 7
    name := { english := some "Old", french := none
              japanese := none, chinese := none }
    type := ["Normal"]
    base := { hp := 1, attack := 1, defense := 1
              specialAttack := 1, specialDefense := 1, speed := 1 }
    image := "old.png" }

/-- A second, different record with the same domain id 7. -/
def dupNew : Pokemon :=
  { id := 7
    name := { english := some "New", french := none
              japanese := none, chinese := none }
    type := ["Normal"]
    base := { hp := 1, attack := 1, defense := 1
              specialAttack := 1, specialDefense := 1, speed := 1 }
    image := "new.png" }

/-- C9: route dispatch precedence — the literal paths `/pokemons/20` and
`/pokemons/search` are registered before `/pokemons/:id`, so a GET to
either is handled by the pagination handler respectively the search
handler, never by the get-by-id handler. -/
theorem C9_dispatch_precedence :
    dispatch .GET ["pokemons", "20"] = some .paginated ∧
    dispatch .GET ["pokemons", "search"] = some .search ∧
    dispatch .GET ["pokemons", "20"] ≠ some .getById ∧
    dispatch .GET ["pokemons", "search"] ≠ some .getById := by
  refine ⟨rfl, rfl, ?_, ?_⟩ <;> decide

/-- C10: on `GET /pokemons/20` a `page` parameter parsing to `0` is
treated exactly like an absent parameter — `parseInt` yields `0`,
which is falsy, so `|| 1` makes the page default to 1 and no record is
skipped. -/
theorem C10_page_zero_defaults (store : Store) :
    getPokemonsPage store (some "0") = getPokemonsPage store none ∧
    (getPokemonsPage store (some "0")).page = 1 ∧
    (getPokemonsPage store (some "0")).data = store.take 20 := by
  have h0 : parseIntJS "0" = some 0 := by decide
  refine ⟨?_, ?_, ?_⟩ <;>
    · simp only [getPokemonsPage, parseIntQuery, h0, jsOr]
      norm_num

/-- C1: the paginated list response for a `page` parameter that is an
integer ≥ 1 (defaulting to 1 when absent or non-numeric) is
`{page, limit, count, data}` with `limit = 20`, `data` the slice of the
store skipping `(page-1)×20` records and taking at most 20, and
`count = data.length ≤ 20`; a page beyond the last yields `count = 0`
and empty `data`. -/
theorem C1_pagination (store : Store) (pageParam : Option String)
    (h : parseIntQuery pageParam = none ∨
      ∃ w, parseIntQuery pageParam = some w ∧ 1 ≤ w) :
    (getPokemonsPage store pageParam).limit = 20 ∧
    1 ≤ (getPokemonsPage store pageParam).page ∧
    (parseIntQuery pageParam = none →
      (getPokemonsPage store pageParam).page = 1) ∧
    (∀ w, parseIntQuery pageParam = some w →
      (getPokemonsPage store pageParam).page = w) ∧
    (getPokemonsPage store pageParam).data =
      (store.drop (((getPokemonsPage store pageParam).page - 1) * 20).toNat).take
        20 ∧
    (getPokemonsPage store pageParam).count =
      (getPokemonsPage store pageParam).data.length ∧
    (getPokemonsPage store pageParam).count ≤ 20 ∧
    (store.length ≤ (((getPokemonsPage store pageParam).page - 1) * 20).toNat →
      (getPokemonsPage store pageParam).count = 0 ∧
      (getPokemonsPage store pageParam).data = []) := by
  have hlimit : (getPokemonsPage store pageParam).limit = 20 := rfl
  have hdata : (getPokemonsPage store pageParam).data =
      (store.drop
        (((getPokemonsPage store pageParam).page - 1) * 20).toNat).take 20 := rfl
  have hcount : (getPokemonsPage store pageParam).count =
      (getPokemonsPage store pageParam).data.length := rfl
  have hpage1 : 1 ≤ (getPokemonsPage store pageParam).page := by
    show 1 ≤ jsOr (parseIntQuery pageParam) 1
    rcases h with hnone | ⟨w, hw, h1⟩
    · rw [hnone]; exact le_refl 1
    · rw [hw]; simp only [jsOr]
      rw [if_neg (by omega : ¬ w = 0)]; exact h1
  refine ⟨hlimit, hpage1, ?_, ?_, hdata, hcount, ?_, ?_⟩
  · intro hnone
    show jsOr (parseIntQuery pageParam) 1 = 1
    rw [hnone]; rfl
  · intro w hw
    show jsOr (parseIntQuery pageParam) 1 = w
    rw [hw]
    rcases h with hnone | ⟨w2, hw2, h2⟩
    · rw [hnone] at hw; exact absurd hw (by simp)
    · rw [hw] at hw2
      have hww : w = w2 := Option.some.inj hw2
      simp only [jsOr]
      rw [if_neg (by omega : ¬ w = 0)]
  · rw [hcount, hdata]
    exact List.length_take_le 20 _
  · intro hlen
    rw [hcount, hdata, List.drop_eq_nil_of_le hlen]
    exact ⟨rfl, rfl⟩

/-- Witness for C1: a three-record store, page `"2"` — the page is
beyond the last, so the count is 0 and the data is empty. -/
theorem C1_pagination_witness :
    (parseIntQuery (some "2") = none ∨
      ∃ w, parseIntQuery (some "2") = some w ∧ 1 ≤ w) ∧
    (getPokemonsPage demoStore (some "2")).count = 0 ∧
    (getPokemonsPage demoStore (some "2")).data = [] ∧
    (getPokemonsPage demoStore (some "2")).limit = 20 := by
  have h : parseIntQuery (some "2") = none ∨
      ∃ w, parseIntQuery (some "2") = some w ∧ 1 ≤ w :=
    Or.inr ⟨2, by decide, by decide⟩
  have hthm := C1_pagination demoStore (some "2") h
  refine ⟨h, ?_, ?_, hthm.1⟩
  · exact (hthm.2.2.2.2.2.2.2 (by decide)).1
  · exact (hthm.2.2.2.2.2.2.2 (by decide)).2

/-- `listInfix` decides contiguous-sublist containment. -/
theorem listInfix_iff (pat l : List Char) :
    listInfix pat l = true ↔ pat <:+: l := by
  induction l with
  | nil =>
    simp only [listInfix, List.isEmpty_iff, List.infix_nil]
  | cons c rest ih =>
    simp only [listInfix, Bool.or_eq_true, List.isPrefixOf_iff_prefix, ih,
      List.infix_cons_iff]

/-- C7: a search request whose `name` query parameter is missing, empty
or whitespace-only gets `400 {error: "Query param 'name' is required"}`,
and the response does not depend on the store state (the early return
happens before any store query). -/
theorem C7_search_missing_name (store : Store) (nameParam : Option String)
    (h : nameParam = none ∨ ∃ s, nameParam = some s ∧ jsTrim s = "") :
    searchPokemons store nameParam = .err 400 "Query param 'name' is required" ∧
    ∀ store2 : Store, searchPokemons store2 nameParam =
      searchPokemons store nameParam := by
  have key : ∀ st : Store,
      searchPokemons st nameParam = .err 400 "Query param 'name' is required" := by
    intro st
    rcases h with hnone | ⟨s, hs, htrim⟩
    · rw [hnone]
      simp only [searchPokemons, Option.getD]
      rfl
    · rw [hs]
      simp only [searchPokemons, Option.getD, htrim]
      rfl
  exact ⟨key store, fun store2 => (key store2).trans (key store).symm⟩

/-- Witness for C7: a whitespace-only `name` parameter on the demo
store yields the 400 response. -/
theorem C7_search_missing_name_witness :
    ((some "   " : Option String) = none ∨
      ∃ s, (some "   " : Option String) = some s ∧ jsTrim s = "") ∧
    searchPokemons demoStore (some "   ") =
      .err 400 "Query param 'name' is required" := by
  have h : (some "   " : Option String) = none ∨
      ∃ s, (some "   " : Option String) = some s ∧ jsTrim s = "" :=
    Or.inr ⟨"   ", rfl, by decide⟩
  exact ⟨h, (C7_search_missing_name demoStore (some "   ") h).1⟩

/-- C2: for a non-blank query `q` free of regex metacharacters, the
search route answers 200 with exactly the stored records matched by the
`$or` over the four localized name fields, and matching a field is
case-insensitive substring containment (the lower-cased query occurs
contiguously in the lower-cased field). -/
theorem C2_search_substring (store : Store) (q : String)
    (hq : jsTrim q ≠ "")
    (hmeta : hasRegexMeta (jsTrim q) = false) :
    searchPokemons store (some q) =
      .ok 200 (store.filter (matchesAnyName (jsTrim q))) ∧
    ∀ s : String, ciContains (jsTrim q) s = true ↔
      lowerList (jsTrim q) <:+: lowerList s := by
  constructor
  · simp only [searchPokemons, Option.getD]
    rw [if_neg hq]
  · intro s
    exact listInfix_iff (lowerList (jsTrim q)) (lowerList s)

/-- Witness for C2: querying `"bulb"` on the demo store matches the
stored name `"Bulbizarre"` and returns exactly that record. -/
theorem C2_search_substring_witness :
    jsTrim "bulb" ≠ "" ∧ hasRegexMeta (jsTrim "bulb") = false ∧
    searchPokemons demoStore (some "bulb") = .ok 200 [bulbizarre] ∧
    ciContains "bulb" "Bulbizarre" = true := by
  have hthm := C2_search_substring demoStore "bulb" (by decide) (by decide)
  exact ⟨by decide, by decide, hthm.1.trans (by decide), by decide⟩

/-- The record `findOneAndDelete` returns is the first one matching the
key in natural order. -/
theorem findOneAndDelete_fst (store : Store) (v : Int) :
    (findOneAndDelete store v).1 = store.find? (fun p => p.id == v) := by
  induction store with
  | nil => rfl
  | cons p rest ih =>
    by_cases hpv : (p.id == v) = true
    · simp [findOneAndDelete, List.find?_cons, hpv]
    · simp only [Bool.not_eq_true] at hpv
      simp [findOneAndDelete, List.find?_cons, hpv, ih]

/-- Deleting removes exactly the first matching record: the matches
remaining afterwards are the tail of the original matches. -/
theorem findOneAndDelete_snd_filter (store : Store) (v : Int) :
    ((findOneAndDelete store v).2).filter (fun p => p.id == v) =
      (store.filter (fun p => p.id == v)).tail := by
  induction store with
  | nil => rfl
  | cons p rest ih =>
    by_cases hpv : (p.id == v) = true
    · simp [findOneAndDelete, List.filter_cons, hpv]
    · simp only [Bool.not_eq_true] at hpv
      simp [findOneAndDelete, List.filter_cons, hpv, ih]

/-- `findOneAndDelete` on a key no record carries returns `none` and
leaves the store unchanged. -/
theorem findOneAndDelete_no_match (store : Store) (v : Int)
    (h : ∀ p ∈ store, p.id ≠ v) :
    findOneAndDelete store v = (none, store) := by
  induction store with
  | nil => rfl
  | cons p rest ih =>
    have hpv : (p.id == v) = false := by
      simp only [beq_eq_false_iff_ne, ne_eq]
      exact h p (List.mem_cons_self p rest)
    have ih2 := ih (fun p2 hp2 => h p2 (List.mem_cons_of_mem p hp2))
    simp [findOneAndDelete, hpv, ih2]

/-- `findOneAndUpdate` on a key no record carries returns `none` and
leaves the store unchanged (no upsert). -/
theorem findOneAndUpdate_no_match (store : Store) (v : Int)
    (u : PokemonUpdate) (h : ∀ p ∈ store, p.id ≠ v) :
    findOneAndUpdate store v u = (none, store) := by
  induction store with
  | nil => rfl
  | cons p rest ih =>
    have hpv : (p.id == v) = false := by
      simp only [beq_eq_false_iff_ne, ne_eq]
      exact h p (List.mem_cons_self p rest)
    have ih2 := ih (fun p2 hp2 => h p2 (List.mem_cons_of_mem p hp2))
    simp [findOneAndUpdate, hpv, ih2]

/-- C4: on `GET /pokemons/:id` the path parameter is parsed as an
integer; when some stored record carries the parsed id the response is
200 with the first such record, when no record matches it is
`404 {error: "Pokemon not found"}`, and a non-numeric parameter
(parsing to the `NaN` sentinel) also yields the 404 response. -/
theorem C4_get_by_id (store : Store) (idStr : String) :
    (∀ v, parseIntJS idStr = some v →
      ((∃ p ∈ store, p.id = v) →
        ∃ p, getPokemonById store idStr = .ok 200 p ∧ p ∈ store ∧ p.id = v) ∧
      ((∀ p ∈ store, p.id ≠ v) →
        getPokemonById store idStr = .err 404 "Pokemon not found")) ∧
    (parseIntJS idStr = none →
      getPokemonById store idStr = .err 404 "Pokemon not found") := by
  constructor
  · intro v hv
    constructor
    · rintro ⟨p0, hp0, hid0⟩
      cases hfind : store.find? (fun p => p.id == v) with
      | some p =>
        refine ⟨p, ?_, List.mem_of_find?_eq_some hfind, ?_⟩
        · simp only [getPokemonById, findOneById, hv, hfind]
        · simpa using List.find?_some hfind
      | none =>
        have hnone := List.find?_eq_none.mp hfind p0 hp0
        simp [hid0] at hnone
    · intro hno
      have hfind : store.find? (fun p => p.id == v) = none :=
        List.find?_eq_none.mpr (fun p hp => by simpa using hno p hp)
      simp only [getPokemonById, findOneById, hv, hfind]
  · intro hnone
    simp only [getPokemonById, findOneById, hnone]

/-- Witness for C4: id `"1"` finds the demo record, id `"999"` and the
non-numeric `"abc"` yield 404. -/
theorem C4_get_by_id_witness :
    parseIntJS "1" = some 1 ∧
    (∃ p ∈ demoStore, p.id = 1) ∧
    (∃ p, getPokemonById demoStore "1" = .ok 200 p ∧ p ∈ demoStore ∧
      p.id = 1) ∧
    getPokemonById demoStore "999" = .err 404 "Pokemon not found" := by
  have h1 := ((C4_get_by_id demoStore "1").1 1 (by decide)).1
    ⟨bulbizarre, by decide, by decide⟩
  have h2 := ((C4_get_by_id demoStore "999").1 999 (by decide)).2 (by decide)
  exact ⟨by decide, ⟨bulbizarre, by decide, by decide⟩, h1, h2⟩

/-- Counterexample to C3 as stated: with a record of id 7 already
stored, creating a second record with id 7 succeeds (201 echoing the
new record), yet `GET /pokemons/7` returns the earlier record, whose
`name` and `image` differ from the created input. -/
theorem C3_roundtrip_counterexample :
    (createPokemon [dupOld] dupNew).1 = .ok 201 dupNew ∧
    getPokemonById (createPokemon [dupOld] dupNew).2 "7" = .ok 200 dupOld ∧
    parseIntJS "7" = some dupNew.id ∧
    dupOld.name ≠ dupNew.name ∧ dupOld ≠ dupNew := by
  refine ⟨rfl, ?_, by decide, by decide, by decide⟩
  decide

/-- C3 (amended): when no already-stored record carries the same id,
creating a record and then getting that id returns 200 with exactly the
created record. -/
theorem C3_roundtrip (store : Store) (r : Pokemon) (idStr : String)
    (hparse : parseIntJS idStr = some r.id)
    (hfresh : ∀ p ∈ store, p.id ≠ r.id) :
    (createPokemon store r).1 = .ok 201 r ∧
    getPokemonById (createPokemon store r).2 idStr = .ok 200 r := by
  refine ⟨rfl, ?_⟩
  have hleft : store.find? (fun p => p.id == r.id) = none :=
    List.find?_eq_none.mpr (fun p hp => by simpa using hfresh p hp)
  have hfind : (store ++ [r]).find? (fun p => p.id == r.id) = some r := by
    rw [List.find?_append, hleft]
    simp [List.find?_cons]
  simp only [getPokemonById, findOneById, createPokemon, hparse, hfind]

/-- Witness for C3 (amended): creating Pikachu in a store holding only
record 1 and then getting id 25 returns Pikachu. -/
theorem C3_roundtrip_witness :
    parseIntJS "25" = some pikachu.id ∧
    (∀ p ∈ [bulbizarre], p.id ≠ pikachu.id) ∧
    getPokemonById (createPokemon [bulbizarre] pikachu).2 "25" =
      .ok 200 pikachu :=
  ⟨by decide, by decide,
    (C3_roundtrip [bulbizarre] pikachu "25" (by decide) (by decide)).2⟩

/-- C5: deleting an id carried by exactly one record answers
`200 {message: "Pokemon deleted successfully", id}` and removes the
record; the immediately repeated delete answers 404, and in general a
delete on an id with no matching record answers the not-found error. -/
theorem C5_delete_idempotent (store : Store) (idStr : String) (v : Int)
    (hparse : parseIntJS idStr = some v)
    (huniq : (store.filter (fun p => p.id == v)).length = 1) :
    (deletePokemon store idStr).1 =
      .ok 200 { message := "Pokemon deleted successfully", id := v } ∧
    (∀ p ∈ (deletePokemon store idStr).2, p.id ≠ v) ∧
    (deletePokemon (deletePokemon store idStr).2 idStr).1 =
      .err 404 "Pokemon not found" ∧
    (∀ store2 : Store, (∀ p ∈ store2, p.id ≠ v) →
      (deletePokemon store2 idStr).1 = .err 404 "Pokemon not found") := by
  have h404 : ∀ store2 : Store, (∀ p ∈ store2, p.id ≠ v) →
      (deletePokemon store2 idStr).1 = .err 404 "Pokemon not found" := by
    intro store2 hno
    simp only [deletePokemon, hparse, findOneAndDelete_no_match store2 v hno]
  obtain ⟨p, hfindp⟩ : ∃ p, store.find? (fun p => p.id == v) = some p := by
    cases hfind : store.find? (fun p => p.id == v) with
    | some p => exact ⟨p, rfl⟩
    | none =>
      have hnil : store.filter (fun p => p.id == v) = [] :=
        List.filter_eq_nil_iff.mpr
          (fun a ha => by simp [List.find?_eq_none.mp hfind a ha])
      rw [hnil] at huniq
      simp at huniq
  have hfst : (findOneAndDelete store v).1 = some p :=
    (findOneAndDelete_fst store v).trans hfindp
  have hpair : findOneAndDelete store v = (some p, (findOneAndDelete store v).2) :=
    Prod.ext_iff.mpr ⟨hfst, rfl⟩
  have hdel : deletePokemon store idStr =
      (.ok 200 { message := "Pokemon deleted successfully", id := v },
        (findOneAndDelete store v).2) := by
    simp only [deletePokemon, hparse]
    rw [hpair]
  have hgone : ∀ q ∈ (findOneAndDelete store v).2, q.id ≠ v := by
    have htail : ((findOneAndDelete store v).2).filter (fun p => p.id == v) = [] := by
      rw [findOneAndDelete_snd_filter store v]
      obtain ⟨a, ha⟩ := List.length_eq_one.mp huniq
      rw [ha]
      rfl
    intro q hq
    have := List.filter_eq_nil_iff.mp htail q hq
    simpa using this
  refine ⟨?_, ?_, ?_, h404⟩
  · rw [hdel]
  · intro q hq
    rw [hdel] at hq
    exact hgone q hq
  · have : (deletePokemon store idStr).2 = (findOneAndDelete store v).2 := by
      rw [hdel]
    rw [this]
    exact h404 _ hgone

/-- Witness for C5: deleting id 25 from the demo store succeeds, and
the repeated delete returns 404. -/
theorem C5_delete_idempotent_witness :
    parseIntJS "25" = some 25 ∧
    (demoStore.filter (fun p => p.id == 25)).length = 1 ∧
    (deletePokemon demoStore "25").1 =
      .ok 200 { message := "Pokemon deleted successfully", id := 25 } ∧
    (deletePokemon (deletePokemon demoStore "25").2 "25").1 =
      .err 404 "Pokemon not found" := by
  have hthm := C5_delete_idempotent demoStore "25" 25 (by decide) (by decide)
  exact ⟨by decide, by decide, hthm.1, hthm.2.2.1⟩

/-- C6: an update targeting an id no stored record carries (including a
non-numeric id, whose parse matches no record) returns the not-found
error and leaves the store exactly as it was — no record is created. -/
theorem C6_update_no_upsert (store : Store) (idStr : String)
    (u : PokemonUpdate)
    (h : ∀ v, parseIntJS idStr = some v → ∀ p ∈ store, p.id ≠ v) :
    putPokemon store idStr u none =
      (.err 404 "Pokemon not found", store) := by
  cases hp : parseIntJS idStr with
  | none => simp only [putPokemon, hp]
  | some v =>
    simp only [putPokemon, hp]
    rw [findOneAndUpdate_no_match store v u (h v hp)]

/-- Witness for C6: updating id 99, absent from the demo store, returns
404 and leaves the store unchanged. -/
theorem C6_update_no_upsert_witness :
    (∀ v, parseIntJS "99" = some v → ∀ p ∈ demoStore, p.id ≠ v) ∧
    putPokemon demoStore "99" { name := none, type := none, base := none
                                image := none } none =
      (.err 404 "Pokemon not found", demoStore) := by
  have h : ∀ v, parseIntJS "99" = some v → ∀ p ∈ demoStore, p.id ≠ v := by
    intro v hv
    have h99 : (99 : Int) = v :=
      Option.some.inj ((by decide : parseIntJS "99" = some 99).symm.trans hv)
    subst h99
    decide
  exact ⟨h, C6_update_no_upsert demoStore "99"
    { name := none, type := none, base := none, image := none } h⟩

/-- C8: on `PUT /pokemons/:id` every failure raised by the store call —
body validation or any other store failure — is surfaced as
`400 {error: message}` with the underlying message, and the route's
status is always 200, 404 or 400, never the generic 500 server error. -/
theorem C8_update_failure_as_400 (store : Store) (idStr : String)
    (u : PokemonUpdate) (storeFailure : Option String) :
    ((putPokemon store idStr u storeFailure).1.status = 200 ∨
      (putPokemon store idStr u storeFailure).1.status = 404 ∨
      (putPokemon store idStr u storeFailure).1.status = 400) ∧
    (putPokemon store idStr u storeFailure).1.status ≠ 500 ∧
    (∀ msg, storeFailure = some msg →
      putPokemon store idStr u storeFailure = (.err 400 msg, store)) := by
  have hcases : (putPokemon store idStr u storeFailure).1.status = 200 ∨
      (putPokemon store idStr u storeFailure).1.status = 404 ∨
      (putPokemon store idStr u storeFailure).1.status = 400 := by
    cases storeFailure with
    | some msg => simp [putPokemon, Resp.status]
    | none =>
      cases hp : parseIntJS idStr with
      | none => simp [putPokemon, hp, Resp.status]
      | some v =>
        cases hfst : (findOneAndUpdate store v u).1 with
        | some p =>
          have hpair : findOneAndUpdate store v u =
              (some p, (findOneAndUpdate store v u).2) :=
            Prod.ext_iff.mpr ⟨hfst, rfl⟩
          simp only [putPokemon, hp]
          rw [hpair]
          simp [Resp.status]
        | none =>
          have hpair : findOneAndUpdate store v u =
              (none, (findOneAndUpdate store v u).2) :=
            Prod.ext_iff.mpr ⟨hfst, rfl⟩
          simp only [putPokemon, hp]
          rw [hpair]
          simp [Resp.status]
  refine ⟨hcases, ?_, ?_⟩
  · rcases hcases with h | h | h <;> omega
  · intro msg hmsg
    rw [hmsg]
    rfl

/-- Witness for C8: a store failure message on a concrete update is
echoed as a 400 error and the status is not 500. -/
theorem C8_update_failure_as_400_witness :
    putPokemon demoStore "25" { name := none, type := none, base := none
                                image := none } (some "Validation failed") =
      (.err 400 "Validation failed", demoStore) ∧
    (putPokemon demoStore "25" { name := none, type := none, base := none
                                 image := none }
      (some "Validation failed")).1.status ≠ 500 := by
  have hthm := C8_update_failure_as_400 demoStore "25"
    { name := none, type := none, base := none, image := none }
    (some "Validation failed")
  exact ⟨hthm.2.2 "Validation failed" rfl, hthm.2.1⟩

end PokemonService
